import Mathlib

/-!
# Verification of the moltbot RaccoonAI bridge

Shallow embedding of `src/extensions/raccoonai-bridge/src/whatsapp-connection.ts`,
`src/extensions/raccoonai-bridge/src/bridge.ts` and the plugin registration file
(HTTP route handler for `/raccoonai/send`), together with proofs of the spec claims.

JavaScript semantics relevant to the embedding:
* string truthiness: `undefined`/`null`/`""` are falsy, every other string truthy;
* `a.endsWith(b)` is suffix testing (every string ends with `""`);
* `s.split(sep)[0]` is the substring before the first occurrence of `sep`
  (the whole string when `sep` is absent).
-/

namespace Moltbot

/-- JS truthiness of an optional string (`undefined` is `none`; `""` is falsy). -/
def strTruthy : Option String → Bool
  | none => false
  | some s => s ≠ ""

/-- JS `a || b` on optional strings, as used for fallback chains. -/
def jsOrStr (a b : Option String) : Option String :=
  if strTruthy a then a else b

/-- JS `a.endsWith(b)`. -/
def jsEndsWith (a b : String) : Bool :=
  b.data.isSuffixOf a.data

/-- JS `s.split(sep)[0]` for a single-character separator: the part of `s`
before the first occurrence of `sep`. -/
def jsSplitHead (s : String) (sep : Char) : String :=
  String.mk (s.data.takeWhile (fun c => c ≠ sep))

/-- Embeds `jid.split("@")[0].split(":")[0]` — the phone-like part of a JID such as
`"919027553376:22@s.whatsapp.net"`. -/
def jidPhone (jid : String) : String :=
  jsSplitHead (jsSplitHead jid '@') ':'

/-! ## A small JSON value model

Credential blobs are opaque JSON values; the Credential Store serializes them to
files and re-parses one well-known file (`creds.json`).  `JSON.stringify` with a
fixed formatter is injective on parsed values, so a file written by the store is
modelled by the `Json` value itself. -/

inductive Json where
  | null
  | bool (b : Bool)
  | num (n : Int)
  | str (s : String)
  | arr (elems : List Json)
  | obj (fields : List (String × Json))
deriving BEq, Repr, Inhabited

/-- JS truthiness of a JSON value. -/
def Json.truthy : Json → Bool
  | .null => false
  | .bool b => b
  | .num n => n ≠ 0
  | .str s => s ≠ ""
  | _ => true

/-- Field access on a JSON object (`undefined` for a missing field or a
non-object). -/
def Json.getField : Json → String → Option Json
  | .obj fields, k => fields.lookup k
  | _, _ => none

/-- JS property assignment on an object's field list: replace the first binding
of the key, else append. -/
def setFieldList : List (String × Json) → String → Json → List (String × Json)
  | [], k, v => [(k, v)]
  | (k', v') :: rest, k, v =>
    if k' = k then (k, v) :: rest else (k', v') :: setFieldList rest k v

/-- Truthiness of `creds.registered` for a parsed `creds.json` value
(`undefined` when missing, hence falsy). -/
def registeredTruthy (j : Json) : Bool :=
  match j.getField "registered" with
  | some v => v.truthy
  | none => false

/-! ## Credential Store (`writeCredentials`, whatsapp-connection.ts lines 75-109)

A user's auth directory is a map from file name to content.  Content is
`Except String Json`: `.ok j` is a file holding the serialization of `j`
(everything the store itself writes), `.error raw` a pre-existing file whose
content does not parse as JSON. -/

/-- Content of one credential file. -/
abbrev FileContent := Except String Json

/-- A per-user credential directory: file name to content. -/
abbrev Dir := String → Option FileContent

/-- Embeds `fs.writeFileSync(path.join(authDir, name), ...)`. -/
def Dir.write (d : Dir) (name : String) (content : FileContent) : Dir :=
  fun n => if n = name then some content else d n

/-- The write loop of `writeCredentials`: each key of the credentials record is
written as `<key>.json` unless its value is null/undefined (modelled by
`none`). -/
def writeFiles (d : Dir) (credentials : List (String × Option Json)) : Dir :=
  credentials.foldl
    (fun acc kv =>
      match kv.2 with
      | none => acc
      | some v => acc.write (kv.1 ++ ".json") (.ok v))
    d

/-- The `registered: true` patch of `writeCredentials`: if `creds.json` exists,
parses, and its `registered` field is falsy, rewrite it with `registered`
set to `true`.

Non-object parses are a no-op: for a primitive the property assignment throws
and is swallowed by the surrounding `catch`, and for an array the assignment
does not change `JSON.stringify`'s output, so directory contents are unchanged
either way.  An unparseable file (`.error`) hits the same `catch`. -/
def patchRegistered (d : Dir) : Dir :=
  match d "creds.json" with
  | some (.ok (Json.obj fields)) =>
    if registeredTruthy (Json.obj fields) then d
    else d.write "creds.json" (.ok (Json.obj (setFieldList fields "registered" (.bool true))))
  | _ => d

/-- Embeds `writeCredentials` (minus the `mkdirSync`, which only ensures the directory
exists): write every non-null credential entry, then patch the `registered`
marker in `creds.json`. -/
def writeCredentials (d : Dir) (credentials : List (String × Option Json)) : Dir :=
  patchRegistered (writeFiles d credentials)

/-! ### Supporting lemmas for idempotence of `writeCredentials` -/

/-- The last value written to file `n` by the write loop, if any. -/
def lastWrite : List (String × Option Json) → String → Option Json
  | [], _ => none
  | kv :: rest, n =>
    match lastWrite rest n with
    | some v => some v
    | none =>
      match kv.2 with
      | some v => if kv.1 ++ ".json" = n then some v else none
      | none => none

/-! ## Session state (whatsapp-connection.ts lines 18-27, 165-265) -/

/-- The four values of `UserConnection.status`. -/
inductive ConnStatus where
  | connecting
  | connected
  | disconnected
  | error
deriving DecidableEq, Repr

/-- Render a status string, for `Connection status: ${userConn.status}`. -/
def ConnStatus.text : ConnStatus → String
  | .connecting => "connecting"
  | .connected => "connected"
  | .disconnected => "disconnected"
  | .error => "error"

/-- Embeds `UserConnection`.  The socket is modelled by an identity (`none` until a
connection attempt is made); timestamps are epoch milliseconds. -/
structure UserConnection where
  userId : String
  socket : Option Nat
  authDir : String
  status : ConnStatus
  phone : Option String
  error : Option String
  lastConnectedAt : Option Nat
  reconnectAttempts : Nat
deriving DecidableEq, Repr

/-- Baileys `DisconnectReason` constants used by the close handler. -/
def restartRequiredCode : Nat := 515

/-- Baileys `DisconnectReason.connectionReplaced`. -/
def connectionReplacedCode : Nat := 440

/-- Baileys `DisconnectReason.loggedOut`. -/
def loggedOutCode : Nat := 401

/-- Embeds `statusCode === DisconnectReason.restartRequired || statusCode === 515 ||
statusCode === DisconnectReason.connectionReplaced` (the status code is
`undefined` when no Boom error is attached, modelled by `none`). -/
def shouldReconnect (statusCode : Option Nat) : Prop :=
  statusCode = some restartRequiredCode ∨ statusCode = some 515 ∨
    statusCode = some connectionReplacedCode

instance (statusCode : Option Nat) : Decidable (shouldReconnect statusCode) := by
  unfold shouldReconnect
  infer_instance

/-- Embeds `` `disconnect_$\x7bstatusCode\x7d` `` — JS string interpolation of the status
code (`undefined` prints as `"undefined"`). -/
def codeText : Option Nat → String
  | some n => toString n
  | none => "undefined"

/-- The `connection === "close"` branch of the `connection.update` handler
(lines 211-248).  Returns the updated connection and whether a reconnect timer
was scheduled (`setTimeout(() => this.createSocket(userConn), 2000)`). -/
def connectionCloseUpdate (c : UserConnection) (statusCode : Option Nat) :
    UserConnection × Bool :=
  if shouldReconnect statusCode ∧ c.reconnectAttempts < 3 ∧ c.status ≠ .error then
    ({ c with reconnectAttempts := c.reconnectAttempts + 1, status := .connecting }, true)
  else if statusCode = some loggedOutCode then
    ({ c with status := .error, error := some "logged_out" }, false)
  else
    ({ c with status := .disconnected,
              error := some ("disconnect_" ++ codeText statusCode) }, false)

/-- The `connection === "open"` branch of the `connection.update` handler
(lines 189-209): status `connected`, reset the reconnect counter, clear the
error, record the time, extract the phone from `sock.user?.id` when present
(the best-effort presence update has no state effect). -/
def connectionOpenUpdate (c : UserConnection) (sockUserId : Option String)
    (now : Nat) : UserConnection :=
  { c with
    status := .connected
    lastConnectedAt := some now
    reconnectAttempts := 0
    error := none
    phone := match sockUserId with
      | some jid => some (jidPhone jid)
      | none => c.phone }

/-- The synchronous effect of `createSocket` on the `UserConnection` (lines
182-183): a freshly made socket is attached and the status set to
`connecting`. -/
def createSocketUpdate (c : UserConnection) (sockId : Nat) : UserConnection :=
  { c with socket := some sockId, status := .connecting }

/-- One protocol-connection event observed by a Session. -/
inductive ConnEvent where
  | opened (sockUserId : Option String) (now : Nat)
  | closed (statusCode : Option Nat)
  | socketCreated (sockId : Nat)
deriving DecidableEq, Repr

/-- Apply one event to a `UserConnection` (dropping the timer flag). -/
def applyEvent (c : UserConnection) : ConnEvent → UserConnection
  | .opened sockUserId now => connectionOpenUpdate c sockUserId now
  | .closed statusCode => (connectionCloseUpdate c statusCode).1
  | .socketCreated sockId => createSocketUpdate c sockId

/-- Run a sequence of connection events. -/
def runEvents (c : UserConnection) (evs : List ConnEvent) : UserConnection :=
  evs.foldl applyEvent c

/-- The `UserConnection` built by `connectUser` (lines 427-434) before its
first socket is created: fresh, `connecting`, zero reconnect attempts. -/
def freshConnection (userId : String) (authDir : String) (phone : Option String) :
    UserConnection :=
  { userId := userId
    socket := none
    authDir := authDir
    status := .connecting
    phone := phone
    error := none
    lastConnectedAt := none
    reconnectAttempts := 0 }

/-! ## Inbound message normalization (`handleIncomingMessage`, lines 268-369) -/

/-- Embeds `WAMessage.key`. -/
structure MessageKey where
  remoteJid : Option String
  fromMe : Bool
  participant : Option String
  id : Option String
deriving DecidableEq, Repr

/-- The text-bearing fields of `WAMessage.message` inspected by the handler. -/
structure RawMessageContent where
  conversation : Option String
  extendedTextMessageText : Option String
  imageMessageCaption : Option String
  videoMessageCaption : Option String
deriving DecidableEq, Repr

/-- The parts of a Baileys `WAMessage` the handler reads. -/
structure WAMessage where
  key : Option MessageKey
  message : Option RawMessageContent
  pushName : Option String
  messageTimestamp : Option Nat
deriving DecidableEq, Repr

/-- Embeds `message.conversation || message.extendedTextMessage?.text ||
message.imageMessage?.caption || message.videoMessage?.caption || ""`
(the `""` result also covers the `if (!message) return` path). -/
def extractText (m : WAMessage) : String :=
  match m.message with
  | none => ""
  | some content =>
    (jsOrStr (jsOrStr (jsOrStr content.conversation content.extendedTextMessageText)
        content.imageMessageCaption) content.videoMessageCaption).getD ""

/-- Baileys `isJidGroup`: the conversation identifier ends with `"@g.us"`. -/
def isJidGroup (jid : String) : Bool :=
  jsEndsWith jid "@g.us"

/-- Embeds `InboundMessage.metadata`. -/
structure InboundMetadata where
  conversationId : Option String
  chatType : Option String
  senderName : Option String
  senderJid : Option String
  groupSubject : Option String
  messageId : Option String
deriving DecidableEq, Repr

/-- The normalized `InboundMessage` (`from` is spelled `fromField`, since
`from` is reserved in Lean). -/
structure InboundMessage where
  userId : String
  integrationId : String
  chatId : String
  fromField : String
  text : String
  timestamp : Nat
  metadata : InboundMetadata
deriving DecidableEq, Repr

/-- Embeds `handleIncomingMessage`: `some m` is the normalized message passed to the
registered `onMessage` callback, `none` means the callback is never invoked
for this protocol message.  `groupSubjectLookup` is the result of the
best-effort `sock.groupMetadata` call (consulted only for groups); `now` is
`Date.now()`.  The best-effort read receipt has no effect on delivery. -/
def handleIncomingMessage (userId : String) (msg : WAMessage)
    (groupSubjectLookup : Option String) (now : Nat) : Option InboundMessage :=
  match msg.key with
  | none => none
  | some key =>
    match key.remoteJid with
    | none => none
    | some remoteJid =>
      if remoteJid = "" then none
      else if jsEndsWith remoteJid "@status" || jsEndsWith remoteJid "@broadcast" then none
      else if key.fromMe then none
      else
        match msg.message with
        | none => none
        | some _ =>
          if (extractText msg).trim = "" then none
          else
            let isGroup := isJidGroup remoteJid
            let participantJid := key.participant
            let senderE164 : Option String :=
              if isGroup && strTruthy participantJid then
                some (jidPhone (participantJid.getD ""))
              else if !isGroup then some (jidPhone remoteJid)
              else none
            some {
              userId := userId
              integrationId := "whatsapp"
              chatId := remoteJid
              fromField := (jsOrStr senderE164 (some remoteJid)).getD ""
              text := extractText msg
              timestamp :=
                match msg.messageTimestamp with
                | some t => if t ≠ 0 then t * 1000 else now
                | none => now
              metadata := {
                conversationId := some remoteJid
                chatType := some (if isGroup then "group" else "direct")
                senderName := jsOrStr msg.pushName none
                senderJid := jsOrStr participantJid none
                groupSubject := if isGroup then groupSubjectLookup else none
                messageId := key.id } }

/-! ## Sending (`sendMessage`, lines 446-504) -/

/-- The connection map (`Map<string, UserConnection>`, insertion-ordered). -/
abbrev Conns := List (String × UserConnection)

/-- Embeds `this.connections.get(userId)`. -/
def lookupConn (conns : Conns) (userId : String) : Option UserConnection :=
  conns.lookup userId

/-- Extensions recognized as images by `/\.(jpg|jpeg|png|gif|webp)$/i`. -/
def imageExts : List String := [".jpg", ".jpeg", ".png", ".gif", ".webp"]

/-- Extensions recognized as video by `/\.(mp4|mov|avi|mkv|webm)$/i`. -/
def videoExts : List String := [".mp4", ".mov", ".avi", ".mkv", ".webm"]

/-- Extensions recognized as audio by `/\.(mp3|wav|ogg|m4a|opus)$/i`. -/
def audioExts : List String := [".mp3", ".wav", ".ogg", ".m4a", ".opus"]

/-- Case-insensitive extension test at the end of the URL. -/
def hasExt (exts : List String) (url : String) : Bool :=
  exts.any (fun e => jsEndsWith url.toLower e)

/-- The `AnyMessageContent` envelope built for the underlying send. -/
inductive OutboundContent where
  | image (url : String) (caption : Option String)
  | video (url : String) (caption : Option String)
  | audio (url : String)
  | document (url : String) (caption : Option String)
  | text (body : String)
deriving DecidableEq, Repr

/-- Content construction of `sendMessage` (lines 462-490): classify the media
URL by extension; image/video/document carry `caption: text || undefined`,
audio never carries a caption; no (truthy) media URL means a plain text
envelope. -/
def buildContent (text : String) (mediaUrl : Option String) : OutboundContent :=
  if strTruthy mediaUrl then
    let url := mediaUrl.getD ""
    let caption := if text ≠ "" then some text else none
    if hasExt imageExts url then .image url caption
    else if hasExt videoExts url then .video url caption
    else if hasExt audioExts url then .audio url
    else .document url caption
  else .text text

/-- The `{success, messageId?, error?}` result record. -/
structure SendResult where
  success : Bool
  messageId : Option String
  error : Option String
deriving DecidableEq, Repr

/-- Outcome of the underlying `socket.sendMessage` network call:
`ok` with `result?.key?.id`, or a throw (`some` = an `Error`'s message). -/
inductive SocketSendOutcome where
  | ok (messageId : Option String)
  | err (message : Option String)
deriving DecidableEq, Repr

/-- Embeds `sendMessage`.  The second component is the network call made —
`socket.sendMessage(chatId, content)` — with `none` meaning no network send
was attempted.  The function is total: underlying send failures come back as
a structured failure. -/
def sendMessage (conns : Conns) (userId chatId text : String)
    (mediaUrl : Option String) (outcome : SocketSendOutcome) :
    SendResult × Option (String × OutboundContent) :=
  match lookupConn conns userId with
  | none => ({ success := false, messageId := none, error := some "User not connected" }, none)
  | some userConn =>
    match userConn.socket with
    | none => ({ success := false, messageId := none, error := some "User not connected" }, none)
    | some _ =>
      if userConn.status ≠ .connected then
        ({ success := false, messageId := none,
           error := some ("Connection status: " ++ userConn.status.text) }, none)
      else
        match outcome with
        | .ok mid => ({ success := true, messageId := mid, error := none },
            some (chatId, buildContent text mediaUrl))
        | .err m => ({ success := false, messageId := none,
                       error := some (m.getD "Send failed") },
            some (chatId, buildContent text mediaUrl))

/-! ## Phone lookup and connected users (lines 512-532) -/

/-- Embeds `phone.replace(/\D/g, "")`: keep only the digit characters. -/
def normalizePhone (phone : String) : String :=
  String.mk (phone.data.filter Char.isDigit)

/-- The loop of `getUserIdByPhone`: first entry whose (truthy) stored phone
ends with the normalized input or vice versa. -/
def findConnByPhone (normalized : String) : Conns → Option String
  | [] => none
  | (userId, conn) :: rest =>
    match conn.phone with
    | some p =>
      if p ≠ "" ∧ (jsEndsWith p normalized = true ∨ jsEndsWith normalized p = true) then
        some userId
      else findConnByPhone normalized rest
    | none => findConnByPhone normalized rest

/-- Embeds `getUserIdByPhone`. -/
def getUserIdByPhone (conns : Conns) (phone : String) : Option String :=
  findConnByPhone (normalizePhone phone) conns

/-- The first connection in the map whose stored phone is a non-empty string
(used to characterize `getUserIdByPhone` on digit-free input). -/
def firstWithPhone : Conns → Option String
  | [] => none
  | (userId, conn) :: rest =>
    match conn.phone with
    | some p => if p ≠ "" then some userId else firstWithPhone rest
    | none => firstWithPhone rest

/-- Embeds `getConnectedUserIds`. -/
def getConnectedUserIds (conns : Conns) : List String :=
  (conns.filter (fun kv => kv.2.status == ConnStatus.connected)).map (fun kv => kv.1)

/-! ## HTTP route `/raccoonai/send` (plugin registration file, lines 88-186) -/

/-- One entry of `OutboundPayload.media`. -/
structure MediaItem where
  url : String
  mimeType : Option String
  filename : Option String
deriving DecidableEq, Repr

/-- The request payload.  Absent string fields are modelled by `""` (absent
and empty behave identically under the handler's truthiness checks);
`userId` and `media` are genuinely optional. -/
structure OutboundPayload where
  integrationId : String
  chatId : String
  text : String
  userId : Option String
  media : Option (List MediaItem)
deriving DecidableEq, Repr

/-- An HTTP response of the handler: status code plus JSON body (every body
the handler writes has the `{success, messageId?, error?}` shape). -/
structure HttpResponse where
  status : Nat
  body : SendResult
deriving DecidableEq, Repr

/-- The userId resolution of the handler: explicit (truthy) `payload.userId`,
else by uniqueness of the connected users — 500 when none are connected, 400
when several are. -/
def resolveUserId (payloadUserId : Option String) (conns : Conns) :
    Except HttpResponse String :=
  if strTruthy payloadUserId then .ok (payloadUserId.getD "")
  else
    match getConnectedUserIds conns with
    | [userId] => .ok userId
    | [] => .error ⟨500, { success := false, messageId := none,
                           error := some "No WhatsApp connections available" }⟩
    | _ => .error ⟨400, { success := false, messageId := none,
                          error := some "Multiple users connected, userId required" }⟩

/-- Embeds `payload.media && payload.media.length > 0` then `payload.media[0].url`. -/
def firstMediaUrl : Option (List MediaItem) → Option String
  | some (item :: _) => some item.url
  | _ => none

/-- The `/raccoonai/send` handler.  `parsedBody` is the result of
`JSON.parse` on the request body (`.error` carries the thrown message, which
the outermost catch turns into a 500).  `outcome` is the underlying socket
send outcome, consulted only if a send is attempted. -/
def handleSendRoute (method : String) (parsedBody : Except String OutboundPayload)
    (conns : Conns) (outcome : SocketSendOutcome) : HttpResponse :=
  if method ≠ "POST" then
    ⟨405, { success := false, messageId := none, error := some "Method not allowed" }⟩
  else
    match parsedBody with
    | .error message =>
      ⟨500, { success := false, messageId := none, error := some message }⟩
    | .ok payload =>
      if payload.integrationId = "" ∨ payload.chatId = "" ∨ payload.text = "" then
        ⟨400, { success := false, messageId := none,
                error := some "Missing required fields: integrationId, chatId, text" }⟩
      else
        match resolveUserId payload.userId conns with
        | .error resp => resp
        | .ok userId =>
          if payload.integrationId = "whatsapp" then
            let result := (sendMessage conns userId payload.chatId payload.text
              (firstMediaUrl payload.media) outcome).1
            ⟨if result.success then 200 else 500, result⟩
          else
            ⟨400, { success := false, messageId := none,
                    error := some ("Integration " ++ payload.integrationId ++ " not supported") }⟩

/-! ## Forwarder (`forwardToRaccoonAI`, bridge.ts lines 45-106) -/

/-- Embeds `RaccoonAIBridgeConfig` (all fields optional in the source). -/
structure RaccoonAIBridgeConfig where
  webhookUrl : Option String
  raccoonApiUrl : Option String
  enabled : Option Bool
deriving DecidableEq, Repr

/-- The normalized forward result. -/
structure ForwardResult where
  success : Bool
  sessionId : Option String
  sessionUrl : Option String
  error : Option String
deriving DecidableEq, Repr

/-- The webhook's JSON acknowledgement (all fields optional). -/
structure WebhookAck where
  success : Option Bool
  sessionId : Option String
  sessionUrl : Option String
  error : Option String
deriving DecidableEq, Repr

/-- Outcome of the `fetch` to the webhook.  `netError` is a rejected fetch
(`some` = an `Error`'s message); otherwise a response with a status, the
result of the best-effort `.text()` read (`none` = the read failed), and the
result of `.json()` (`.error` = parse threw, caught by the outer catch). -/
inductive WebhookFetch where
  | netError (message : Option String)
  | response (status : Nat) (bodyText : Option String)
      (jsonBody : Except (Option String) WebhookAck)
deriving Repr

/-- Embeds `forwardToRaccoonAI`.  Total — every failure path is returned as a
structured result, never thrown. -/
def forwardToRaccoonAI (config : RaccoonAIBridgeConfig) (fetch : WebhookFetch) :
    ForwardResult :=
  if config.enabled ≠ some true then
    { success := false, sessionId := none, sessionUrl := none,
      error := some "Bridge is disabled" }
  else if ¬ strTruthy config.webhookUrl then
    { success := false, sessionId := none, sessionUrl := none,
      error := some "No webhook URL configured" }
  else
    match fetch with
    | .netError message =>
      { success := false, sessionId := none, sessionUrl := none,
        error := some (message.getD "Failed to forward message") }
    | .response status bodyText jsonBody =>
      if ¬ (200 ≤ status ∧ status < 300) then
        { success := false, sessionId := none, sessionUrl := none,
          error := some ("HTTP " ++ toString status ++ ": " ++ bodyText.getD "Unknown error") }
      else
        match jsonBody with
        | .error message =>
          { success := false, sessionId := none, sessionUrl := none,
            error := some (message.getD "Failed to forward message") }
        | .ok ack =>
          { success := ack.success.getD true, sessionId := ack.sessionId,
            sessionUrl := ack.sessionUrl, error := ack.error }

/-! ## Connection Manager lifecycle (lines 112-146, 372-443, 535-553) -/

/-- One record of the integrations listing. -/
structure Integration where
  userId : String
  integrationId : String
  credentials : Option (List (String × Option Json))
  metadataPhone : Option String

/-- Outcome of the `GET {apiUrl}/i/moltbot/integrations` fetch: network error
(also covers a `.json()` throw), or a response whose body may lack the
`integrations` field. -/
inductive IntegrationsFetch where
  | netError
  | httpResponse (status : Nat) (integrations : Option (List Integration))

/-- Embeds `fetchIntegrations`: every failure (no configured API URL, network error,
non-2xx status) is swallowed into an empty list. -/
def fetchIntegrations (apiUrl : Option String) (fetch : IntegrationsFetch) :
    List Integration :=
  if ¬ strTruthy apiUrl then []
  else
    match fetch with
    | .netError => []
    | .httpResponse status integrations =>
      if 200 ≤ status ∧ status < 300 then integrations.getD [] else []

/-- Record field access on a credentials blob (`credentials.creds`); an
explicit `null`/`undefined` value (`none`) reads as absent. -/
def recordGet (record : List (String × Option Json)) (key : String) : Option Json :=
  match record.lookup key with
  | some (some j) => some j
  | _ => none

/-- Embeds `extractPhone` (lines 149-163): explicit metadata phone when truthy, else
the phone-like prefix of `credentials.creds.me.id`.  (A truthy non-string
`id` would make the source throw on `.split`; only string ids yield a
phone.) -/
def extractPhone (credentials : List (String × Option Json))
    (metadataPhone : Option String) : Option String :=
  if strTruthy metadataPhone then metadataPhone
  else
    match recordGet credentials "creds" with
    | some creds =>
      match creds.getField "me" with
      | some me =>
        match me.getField "id" with
        | some (Json.str id) => if id ≠ "" then some (jidPhone id) else none
        | _ => none
      | _ => none
    | none => none

/-- Manager state: the connection map, the configured API URL, the
initialized flag, and a supply of fresh socket identities. -/
structure ManagerState where
  connections : Conns
  apiUrl : Option String
  isInitialized : Bool
  nextSocketId : Nat

/-- Per-user credential directories, keyed by auth-directory path. -/
abbrev FileSystem := String → Dir

/-- Embeds `path.join(os.homedir(), ".clawdbot", "credentials", "whatsapp")`
(`~` stands for the home directory). -/
def getBaseAuthDir : String := "~/.clawdbot/credentials/whatsapp"

/-- Embeds `getAuthDir`: `<base>/raccoon-<userId>`. -/
def getAuthDir (userId : String) : String :=
  getBaseAuthDir ++ "/raccoon-" ++ userId

/-- JS `Map.set`: replace in place or append. -/
def setConn : Conns → String → UserConnection → Conns
  | [], userId, conn => [(userId, conn)]
  | (k, v) :: rest, userId, conn =>
    if k = userId then (userId, conn) :: rest
    else (k, v) :: setConn rest userId conn

/-- The body of `connectUser` past the already-connected guard: write the
credentials, extract a phone, store a fresh `connecting` connection, then
`createSocket` attaches a fresh socket to that same object. -/
def connectUserGo (s : ManagerState) (fs : FileSystem) (userId : String)
    (credentials : List (String × Option Json)) (metadataPhone : Option String) :
    ManagerState × FileSystem :=
  let authDir := getAuthDir userId
  let fs' : FileSystem := fun p =>
    if p = authDir then writeCredentials (fs authDir) credentials else fs p
  let conn := freshConnection userId authDir (extractPhone credentials metadataPhone)
  ({ s with connections := setConn s.connections userId (createSocketUpdate conn s.nextSocketId)
            nextSocketId := s.nextSocketId + 1 }, fs')

/-- Embeds `connectUser` (lines 409-443): no-op when the user is already
`connected`. -/
def connectUser (s : ManagerState) (fs : FileSystem) (userId : String)
    (credentials : List (String × Option Json)) (metadataPhone : Option String) :
    ManagerState × FileSystem :=
  match lookupConn s.connections userId with
  | some existing =>
    if existing.status = .connected then (s, fs)
    else connectUserGo s fs userId credentials metadataPhone
  | none => connectUserGo s fs userId credentials metadataPhone

/-- Embeds the source's initialize method (lines 372-406).  The third component records whether the
integrations listing was fetched: an already-initialized manager returns
immediately.  Otherwise the listing is filtered to whatsapp integrations with
(truthy) credentials, each is connected (per-user failures are caught in the
source and abort nothing), and the initialized flag is set — regardless of
whether the fetch succeeded, failed, or returned non-2xx. -/
def initializeManager (s : ManagerState) (fs : FileSystem)
    (fetch : IntegrationsFetch) : ManagerState × FileSystem × Bool :=
  if s.isInitialized then (s, fs, false)
  else
    let whatsappIntegrations := (fetchIntegrations s.apiUrl fetch).filter
      (fun i => i.integrationId == "whatsapp" && i.credentials.isSome)
    let result := whatsappIntegrations.foldl
      (fun acc i => connectUser acc.1 acc.2 i.userId (i.credentials.getD []) i.metadataPhone)
      (s, fs)
    ({ result.1 with isInitialized := true }, result.2, true)

/-- JS `Map.delete` on the connection map. -/
def removeConn (conns : Conns) (userId : String) : Conns :=
  conns.filter (fun kv => kv.1 ≠ userId)

/-- The map effect of `disconnectUser` (lines 535-545): best-effort
`socket.end` (no map effect), then removal from the map.  The scheduled
reconnect timer, if any, is *not* cancelled. -/
def disconnectUser (s : ManagerState) (userId : String) : ManagerState :=
  { s with connections := removeConn s.connections userId }

/-- Embeds `shutdown` (lines 548-553): disconnect every user, then clear the
initialized flag. -/
def shutdown (s : ManagerState) : ManagerState :=
  let s' := (s.connections.map (fun kv => kv.1)).foldl disconnectUser s
  { s' with isInitialized := false }

/-! ## Trace model for the reconnect timer vs. `disconnectUser`

The `setTimeout(() => this.createSocket(userConn), 2000)` callback captures the
`UserConnection` object itself; `disconnectUser` removes the map entry but does
not cancel the timer.  `BridgeWorld` tracks the captured object, whether the
connection map still holds it, the pending timer, and how many sockets
`makeWASocket` has opened so far (socket identities are allocated in order). -/

structure BridgeWorld where
  conn : UserConnection
  inMap : Bool
  pendingReconnect : Bool
  socketsOpened : Nat
deriving DecidableEq, Repr

/-- Embeds `createSocket(userConn)` (lines 166-183): `makeWASocket` opens a fresh
socket, which is attached to the captured object, whose status becomes
`connecting`. -/
def fireCreateSocket (w : BridgeWorld) : BridgeWorld :=
  { w with socketsOpened := w.socketsOpened + 1
           conn := createSocketUpdate w.conn w.socketsOpened }

/-- A connection close event: the close handler updates the captured object
and may schedule the reconnect timer. -/
def worldClose (w : BridgeWorld) (statusCode : Option Nat) : BridgeWorld :=
  { w with conn := (connectionCloseUpdate w.conn statusCode).1
           pendingReconnect := w.pendingReconnect || (connectionCloseUpdate w.conn statusCode).2 }

/-- Embeds `disconnectUser` seen by this single session: best-effort `socket.end`
(no state effect here), then `connections.delete(userId)`; the pending timer
is untouched. -/
def worldDisconnectUser (w : BridgeWorld) : BridgeWorld :=
  { w with inMap := false }

/-- The 2-second timer fires, if still pending: the callback runs
`createSocket` on the captured object unconditionally — the source has no
guard on current map membership. -/
def worldTimerFires (w : BridgeWorld) : BridgeWorld :=
  if w.pendingReconnect then fireCreateSocket { w with pendingReconnect := false } else w

/-! ## Concrete instances used by witnesses and counterexamples -/

/-- A connected session with socket `0` and the given stored phone. -/
def phoneConn (userId phone : String) : UserConnection :=
  { freshConnection userId (getAuthDir userId) (some phone) with
      status := .connected, socket := some 0 }

/-- A session that has exhausted its reconnect budget. -/
def cappedConn : UserConnection :=
  { phoneConn "u1" "15551234567" with reconnectAttempts := 3 }

/-- World with one connected session in the map and one socket opened. -/
def c2Start : BridgeWorld :=
  { conn := { phoneConn "u1" "15551234567" with lastConnectedAt := some 1000 }
    inMap := true
    pendingReconnect := false
    socketsOpened := 1 }

/-- An inbound protocol message from a status conversation. -/
def statusMsg : WAMessage :=
  { key := some { remoteJid := some "123@status", fromMe := false,
                  participant := none, id := some "m1" }
    message := some { conversation := some "hello", extendedTextMessageText := none,
                      imageMessageCaption := none, videoMessageCaption := none }
    pushName := none
    messageTimestamp := some 1700000000 }

/-- A connection map with a single connected user `u1`. -/
def c1Conns : Conns := [("u1", phoneConn "u1" "15551234567")]

/-- A well-formed outbound payload addressed to `u1`. -/
def c1Payload : OutboundPayload :=
  { integrationId := "whatsapp", chatId := "123@x", text := "hi",
    userId := some "u1", media := none }

/-- Connections for the digit-free phone lookup: first a session with no
phone, then a *disconnected* session with a phone, then a connected one. -/
def digitFreeConns : Conns :=
  [("u0", freshConnection "u0" (getAuthDir "u0") none),
   ("u1", { freshConnection "u1" (getAuthDir "u1") (some "4915550000") with
              status := .disconnected }),
   ("u2", phoneConn "u2" "15551234567")]

/-- An enabled bridge configuration with a webhook URL. -/
def enabledConfig : RaccoonAIBridgeConfig :=
  { webhookUrl := some "https://example.com/hook"
    raccoonApiUrl := some "https://api.example.com"
    enabled := some true }

/-- A manager that has not yet initialized. -/
def uninitState : ManagerState :=
  { connections := [], apiUrl := some "https://api.example.com",
    isInitialized := false, nextSocketId := 0 }

/-- An empty filesystem. -/
def emptyFs : FileSystem := fun _ _ => none

theorem writeFiles_eq (credentials : List (String × Option Json)) (d : Dir) (n : String) :
    writeFiles d credentials n =
      match lastWrite credentials n with
      | some v => some (.ok v)
      | none => d n := by
  induction credentials generalizing d with
  | nil => simp [writeFiles, lastWrite]
  | cons kv rest ih =>
    show writeFiles (match kv.2 with
      | none => d
      | some v => d.write (kv.1 ++ ".json") (.ok v)) rest n = _
    rw [ih]
    cases h : lastWrite rest n with
    | some v => simp [lastWrite, h]
    | none =>
      cases hv : kv.2 with
      | none => simp [lastWrite, h, hv]
      | some v =>
        by_cases hn : kv.1 ++ ".json" = n
        · simp [lastWrite, h, hv, hn, Dir.write]
        · simp [lastWrite, h, hv, hn, Dir.write, Ne.symm hn]

theorem patchRegistered_other (d : Dir) (n : String) (hn : n ≠ "creds.json") :
    patchRegistered d n = d n := by
  unfold patchRegistered
  cases h : d "creds.json" with
  | none => rfl
  | some c =>
    cases c with
    | error r => rfl
    | ok j =>
      cases j <;> try rfl
      case obj fields =>
        by_cases hr : registeredTruthy (Json.obj fields) <;> simp [hr, Dir.write, hn]

theorem lookup_setFieldList (fields : List (String × Json)) (k : String) (v : Json) :
    (setFieldList fields k v).lookup k = some v := by
  induction fields with
  | nil => simp [setFieldList]
  | cons kv rest ih =>
    by_cases hk : kv.1 = k
    · simp [setFieldList, hk, List.lookup]
    · have hbeq : (k == kv.1) = false := beq_eq_false_iff_ne.mpr (Ne.symm hk)
      simp [setFieldList, hk, List.lookup, hbeq, ih]

theorem registeredTruthy_setField (fields : List (String × Json)) :
    registeredTruthy (Json.obj (setFieldList fields "registered" (.bool true))) = true := by
  simp [registeredTruthy, Json.getField, lookup_setFieldList, Json.truthy]

theorem patchRegistered_idem (d : Dir) :
    patchRegistered (patchRegistered d) = patchRegistered d := by
  by_cases hcase : ∃ fields, d "creds.json" = some (.ok (Json.obj fields)) ∧
      registeredTruthy (Json.obj fields) = false
  · obtain ⟨fields, hd, hr⟩ := hcase
    have h1 : patchRegistered d =
        d.write "creds.json" (.ok (Json.obj (setFieldList fields "registered" (.bool true)))) := by
      unfold patchRegistered
      rw [hd]
      simp [hr]
    rw [h1]
    have h2 : (d.write "creds.json"
        (.ok (Json.obj (setFieldList fields "registered" (.bool true))))) "creds.json" =
        some (.ok (Json.obj (setFieldList fields "registered" (.bool true)))) := by
      simp [Dir.write]
    unfold patchRegistered
    rw [h2]
    simp [registeredTruthy_setField]
  · have h1 : patchRegistered d = d := by
      unfold patchRegistered
      cases h : d "creds.json" with
      | none => rfl
      | some c =>
        cases c with
        | error r => rfl
        | ok j =>
          cases j <;> try rfl
          case obj fields =>
            have hr : registeredTruthy (Json.obj fields) = true := by
              by_contra hc
              exact hcase ⟨fields, h, by simpa using hc⟩
            simp [hr]
    rw [h1, h1]

/-- C7: writing the same credential map twice through the Credential Store
(`writeCredentials`, including the `registered` marker patching) yields exactly
the same directory contents as writing it once — the second write produces no
observable change, for every starting directory and credential map. -/
theorem writeCredentials_idempotent (d : Dir) (c : List (String × Option Json)) :
    writeCredentials (writeCredentials d c) c = writeCredentials d c := by
  unfold writeCredentials
  cases hc : lastWrite c "creds.json" with
  | some v0 =>
    have hw : writeFiles (patchRegistered (writeFiles d c)) c = writeFiles d c := by
      funext n
      rw [writeFiles_eq, writeFiles_eq]
      cases hn : lastWrite c n with
      | some u => rfl
      | none =>
        have hne : n ≠ "creds.json" := by
          intro he
          rw [he, hc] at hn
          exact Option.noConfusion hn
        rw [patchRegistered_other _ n hne, writeFiles_eq, hn]
    rw [hw]
  | none =>
    have hw : writeFiles (patchRegistered (writeFiles d c)) c =
        patchRegistered (writeFiles d c) := by
      funext n
      rw [writeFiles_eq]
      cases hn : lastWrite c n with
      | some u =>
        have hne : n ≠ "creds.json" := by
          intro he
          rw [he, hc] at hn
          exact Option.noConfusion hn
        rw [patchRegistered_other _ n hne, writeFiles_eq, hn]
      | none => rfl
    rw [hw, patchRegistered_idem]

theorem applyEvent_attempts_le (c : UserConnection) (e : ConnEvent)
    (h : c.reconnectAttempts ≤ 3) : (applyEvent c e).reconnectAttempts ≤ 3 := by
  cases e with
  | opened sockUserId now => simp [applyEvent, connectionOpenUpdate]
  | socketCreated sockId => simpa [applyEvent, createSocketUpdate] using h
  | closed statusCode =>
    show (connectionCloseUpdate c statusCode).1.reconnectAttempts ≤ 3
    unfold connectionCloseUpdate
    split
    · next hcond =>
      have := hcond.2.1
      simp only []
      omega
    · split <;> simpa using h

theorem runEvents_attempts_le (c : UserConnection) (evs : List ConnEvent)
    (h : c.reconnectAttempts ≤ 3) : (runEvents c evs).reconnectAttempts ≤ 3 := by
  induction evs generalizing c with
  | nil => simpa [runEvents] using h
  | cons e rest ih =>
    show (runEvents (applyEvent c e) rest).reconnectAttempts ≤ 3
    exact ih _ (applyEvent_attempts_le c e h)

/-- C3: starting from any connection within the bound (as `connectUser` does,
at 0), `reconnectAttempts` stays in `[0, 3]` under every sequence of
open/close/socket events; and once it equals 3, a further qualifying
disconnect (restart-required, code 515, or connection-replaced) schedules no
reconnect timer and sets status `disconnected` (or `error` had the code
mapped to logout — which no qualifying code does). -/
theorem reconnectAttempts_invariant :
    (∀ (c : UserConnection) (evs : List ConnEvent), c.reconnectAttempts ≤ 3 →
        (runEvents c evs).reconnectAttempts ≤ 3) ∧
    (∀ (c : UserConnection) (statusCode : Option Nat),
        c.reconnectAttempts = 3 → shouldReconnect statusCode →
        (connectionCloseUpdate c statusCode).2 = false ∧
          ((connectionCloseUpdate c statusCode).1.status = .disconnected ∨
            (statusCode = some loggedOutCode ∧
              (connectionCloseUpdate c statusCode).1.status = .error))) := by
  refine ⟨runEvents_attempts_le, ?_⟩
  intro c statusCode h3 hsr
  have hnot : ¬(shouldReconnect statusCode ∧ c.reconnectAttempts < 3 ∧
      c.status ≠ ConnStatus.error) := by
    rintro ⟨-, hlt, -⟩
    omega
  have hne : ¬ statusCode = some loggedOutCode := by
    rcases hsr with h | h | h <;>
      simp [h, restartRequiredCode, connectionReplacedCode, loggedOutCode]
  unfold connectionCloseUpdate
  rw [if_neg hnot, if_neg hne]
  exact ⟨rfl, Or.inl rfl⟩

/-- Witness for C3: a session capped at 3 attempts, close code 515. -/
theorem reconnectAttempts_invariant_witness :
    (runEvents cappedConn [ConnEvent.closed (some 515)]).reconnectAttempts ≤ 3 ∧
      (connectionCloseUpdate cappedConn (some 515)).2 = false ∧
      ((connectionCloseUpdate cappedConn (some 515)).1.status = ConnStatus.disconnected ∨
        (some 515 = some loggedOutCode ∧
          (connectionCloseUpdate cappedConn (some 515)).1.status = ConnStatus.error)) :=
  ⟨reconnectAttempts_invariant.1 cappedConn [ConnEvent.closed (some 515)] (by decide),
    reconnectAttempts_invariant.2 cappedConn (some 515) (by decide)
      (Or.inr (Or.inl rfl))⟩

/-- C2 (code evidence): a qualifying close schedules the reconnect timer;
`disconnectUser` then removes the session from the map without cancelling the
timer; when the timer fires, the callback still runs `createSocket` on the
captured, torn-down `UserConnection` — it opens a second socket and mutates
the object (socket `0` replaced by socket `1`, status forced to `connecting`)
even though the map no longer holds it.  The claimed no-op behavior fails. -/
theorem stale_reconnect_reopens_socket :
    worldTimerFires (worldDisconnectUser (worldClose c2Start (some restartRequiredCode))) =
      { conn := { phoneConn "u1" "15551234567" with
                    lastConnectedAt := some 1000
                    socket := some 1
                    status := .connecting
                    reconnectAttempts := 1 }
        inMap := false
        pendingReconnect := false
        socketsOpened := 2 } := by
  decide

/-- C4: an inbound protocol message from a broadcast/status conversation
(conversation identifier ending in the reserved `@status`/`@broadcast`
suffix), or self-sent (`fromMe`), or whose extracted text is empty or
whitespace-only, is never delivered to the registered `onMessage` callback. -/
theorem filtered_messages_never_delivered (userId : String) (msg : WAMessage)
    (groupSubjectLookup : Option String) (now : Nat)
    (h : (∃ key jid, msg.key = some key ∧ key.remoteJid = some jid ∧
            (jsEndsWith jid "@status" = true ∨ jsEndsWith jid "@broadcast" = true)) ∨
         (∃ key, msg.key = some key ∧ key.fromMe = true) ∨
         (extractText msg).trim = "") :
    handleIncomingMessage userId msg groupSubjectLookup now = none := by
  cases hk : msg.key with
  | none => simp [handleIncomingMessage, hk]
  | some key =>
    cases hj : key.remoteJid with
    | none => simp [handleIncomingMessage, hk, hj]
    | some jid =>
      by_cases hemp : jid = ""
      · simp [handleIncomingMessage, hk, hj, hemp]
      · by_cases hb : jsEndsWith jid "@status" = true ∨ jsEndsWith jid "@broadcast" = true
        · simp [handleIncomingMessage, hk, hj, hemp, hb]
        · by_cases hf : key.fromMe = true
          · simp [handleIncomingMessage, hk, hj, hemp, hb, hf]
          · have htext : (extractText msg).trim = "" := by
              rcases h with ⟨key', jid', hk', hj', hsuf⟩ | ⟨key', hk', hfm⟩ | ht
              · rw [hk] at hk'
                have he : key = key' := by injection hk'
                subst he
                rw [hj] at hj'
                have he : jid = jid' := by injection hj'
                subst he
                exact absurd hsuf hb
              · rw [hk] at hk'
                have he : key = key' := by injection hk'
                subst he
                exact absurd hfm hf
              · exact ht
            cases hm : msg.message with
            | none => simp [handleIncomingMessage, hk, hj, hemp, hb, hf, hm]
            | some content => simp [handleIncomingMessage, hk, hj, hemp, hb, hf, hm, htext]

/-- Witness for C4: a message from a status conversation is dropped. -/
theorem filtered_messages_never_delivered_witness :
    handleIncomingMessage "u1" statusMsg none 0 = none :=
  filtered_messages_never_delivered "u1" statusMsg none 0
    (Or.inl ⟨_, _, rfl, rfl, Or.inl (by decide)⟩)

/-- C5: for every userId absent from the connection map (and any chat, text,
media URL and socket outcome), `sendMessage` returns `{success:false}` with
the "User not connected" error; the second component `none` records that no
network send was attempted.  The function is total, so it never throws. -/
theorem sendMessage_user_not_connected (conns : Conns) (userId chatId text : String)
    (mediaUrl : Option String) (outcome : SocketSendOutcome)
    (h : lookupConn conns userId = none) :
    sendMessage conns userId chatId text mediaUrl outcome =
      ({ success := false, messageId := none, error := some "User not connected" }, none) := by
  unfold sendMessage
  rw [h]

/-- Witness for C5: the empty connection map. -/
theorem sendMessage_user_not_connected_witness :
    sendMessage [] "u1" "123@x" "hi" none (.ok none) =
      ({ success := false, messageId := none, error := some "User not connected" }, none) :=
  sendMessage_user_not_connected [] "u1" "123@x" "hi" none (.ok none) rfl

theorem findConnByPhone_sound (normalized : String) (conns : Conns) (userId : String)
    (h : findConnByPhone normalized conns = some userId) :
    ∃ conn p, (userId, conn) ∈ conns ∧ conn.phone = some p ∧ p ≠ "" ∧
      (normalized.data <:+ p.data ∨ p.data <:+ normalized.data) := by
  induction conns with
  | nil => simp [findConnByPhone] at h
  | cons kv rest ih =>
    obtain ⟨uid, conn⟩ := kv
    unfold findConnByPhone at h
    cases hp : conn.phone with
    | none =>
      rw [hp] at h
      obtain ⟨c, p, hmem, h1, h2, h3⟩ := ih h
      exact ⟨c, p, List.mem_cons_of_mem _ hmem, h1, h2, h3⟩
    | some p =>
      rw [hp] at h
      have h' : (if p ≠ "" ∧ (jsEndsWith p normalized = true ∨ jsEndsWith normalized p = true)
          then some uid else findConnByPhone normalized rest) = some userId := h
      by_cases hcond : p ≠ "" ∧ (jsEndsWith p normalized = true ∨ jsEndsWith normalized p = true)
      · rw [if_pos hcond] at h'
        have he : uid = userId := by injection h'
        subst he
        refine ⟨conn, p, List.mem_cons_self _ _, hp, hcond.1, ?_⟩
        rcases hcond.2 with h1 | h1
        · exact Or.inl (by simpa [jsEndsWith, List.isSuffixOf_iff_suffix] using h1)
        · exact Or.inr (by simpa [jsEndsWith, List.isSuffixOf_iff_suffix] using h1)
      · rw [if_neg hcond] at h'
        obtain ⟨c, p', hmem, h1, h2, h3⟩ := ih h'
        exact ⟨c, p', List.mem_cons_of_mem _ hmem, h1, h2, h3⟩

theorem findConnByPhone_none (normalized : String) (conns : Conns)
    (h : ∀ userId conn, (userId, conn) ∈ conns → ∀ p, conn.phone = some p →
      ¬(p ≠ "" ∧ (jsEndsWith p normalized = true ∨ jsEndsWith normalized p = true))) :
    findConnByPhone normalized conns = none := by
  induction conns with
  | nil => rfl
  | cons kv rest ih =>
    obtain ⟨uid, conn⟩ := kv
    unfold findConnByPhone
    cases hp : conn.phone with
    | none => exact ih (fun u c hm p hp' => h u c (List.mem_cons_of_mem _ hm) p hp')
    | some p =>
      show (if p ≠ "" ∧ (jsEndsWith p normalized = true ∨ jsEndsWith normalized p = true)
          then some uid else findConnByPhone normalized rest) = none
      rw [if_neg (h uid conn (List.mem_cons_self _ _) p hp)]
      exact ih (fun u c hm p' hp' => h u c (List.mem_cons_of_mem _ hm) p' hp')

/-- C8: `getUserIdByPhone` strips every non-digit from its input; any userId
it returns belongs to an entry whose (non-empty) stored phone has the
normalized input as a suffix, or is itself a suffix of the normalized input;
when no entry matches either way it returns `none`; and the two concrete
examples — stored phone `"5551234567"` against input `"15551234567"`, and
stored phone equal to the digit-stripped form of `"+1-555-123-4567"` — both
match. -/
theorem getUserIdByPhone_spec :
    (∀ (conns : Conns) (phone userId : String),
        getUserIdByPhone conns phone = some userId →
        ∃ conn p, (userId, conn) ∈ conns ∧ conn.phone = some p ∧ p ≠ "" ∧
          ((normalizePhone phone).data <:+ p.data ∨ p.data <:+ (normalizePhone phone).data)) ∧
    (∀ (conns : Conns) (phone : String),
        (∀ userId conn p, (userId, conn) ∈ conns → conn.phone = some p → p ≠ "" →
          ¬ (normalizePhone phone).data <:+ p.data ∧ ¬ p.data <:+ (normalizePhone phone).data) →
        getUserIdByPhone conns phone = none) ∧
    getUserIdByPhone [("u1", phoneConn "u1" "5551234567")] "15551234567" = some "u1" ∧
    getUserIdByPhone [("u2", phoneConn "u2" (normalizePhone "+1-555-123-4567"))] "15551234567" =
      some "u2" := by
  refine ⟨?_, ?_, by decide, by decide⟩
  · intro conns phone userId h
    exact findConnByPhone_sound (normalizePhone phone) conns userId h
  · intro conns phone h
    refine findConnByPhone_none (normalizePhone phone) conns ?_
    rintro userId conn hm p hp ⟨hne, hsuf⟩
    obtain ⟨h1, h2⟩ := h userId conn p hm hp hne
    rcases hsuf with hs | hs
    · exact h1 (by simpa [jsEndsWith, List.isSuffixOf_iff_suffix] using hs)
    · exact h2 (by simpa [jsEndsWith, List.isSuffixOf_iff_suffix] using hs)

/-- Witness for C8, soundness direction at the first concrete example. -/
theorem getUserIdByPhone_spec_witness :
    ∃ conn p, ("u1", conn) ∈ [("u1", phoneConn "u1" "5551234567")] ∧
      conn.phone = some p ∧ p ≠ "" ∧
      ((normalizePhone "15551234567").data <:+ p.data ∨
        p.data <:+ (normalizePhone "15551234567").data) :=
  getUserIdByPhone_spec.1 [("u1", phoneConn "u1" "5551234567")] "15551234567" "u1" (by decide)

/-- C9: on an input with no digit characters the normalized phone is empty,
every non-empty stored phone ends with it, and `getUserIdByPhone` therefore
returns the first connection in the map whose stored phone is non-empty —
`firstWithPhone`, which ignores the connection's status entirely. -/
theorem getUserIdByPhone_digit_free (conns : Conns) (phone : String)
    (h : ∀ c ∈ phone.data, ¬ c.isDigit) :
    getUserIdByPhone conns phone = firstWithPhone conns := by
  have hnorm : normalizePhone phone = "" := by
    unfold normalizePhone
    have : phone.data.filter Char.isDigit = [] := by
      rw [List.filter_eq_nil_iff]
      intro c hc
      simpa using h c hc
    rw [this]
  unfold getUserIdByPhone
  rw [hnorm]
  induction conns with
  | nil => rfl
  | cons kv rest ih =>
    obtain ⟨uid, conn⟩ := kv
    unfold findConnByPhone firstWithPhone
    cases hp : conn.phone with
    | none => exact ih
    | some p =>
      show (if p ≠ "" ∧ (jsEndsWith p "" = true ∨ jsEndsWith "" p = true)
          then some uid else findConnByPhone "" rest) =
        (if p ≠ "" then some uid else firstWithPhone rest)
      by_cases hne : p = ""
      · simpa [hne] using ih
      · have hcond : p ≠ "" ∧ (jsEndsWith p "" = true ∨ jsEndsWith "" p = true) := by
          refine ⟨hne, Or.inl ?_⟩
          simp [jsEndsWith]
        rw [if_pos hcond, if_pos hne]

/-- Witness for C9: an all-letter input over a map whose first phone-bearing
entry is a *disconnected* session. -/
theorem getUserIdByPhone_digit_free_witness :
    getUserIdByPhone digitFreeConns "abc" = firstWithPhone digitFreeConns :=
  getUserIdByPhone_digit_free digitFreeConns "abc" (by decide)

/-- C1 counterexample: a POST with `integrationId:"whatsapp"`, non-empty
`chatId`/`text` and resolvable `userId "u1"` (connected), whose underlying
send completes but fails, is answered with HTTP **500** — not 200 as the
claim states: the handler writes `result.success ? 200 : 500`. -/
theorem send_route_failed_send_is_500 :
    handleSendRoute "POST" (.ok c1Payload) c1Conns (.err (some "boom")) =
      ⟨500, { success := false, messageId := none, error := some "boom" }⟩ ∧
    (500 : Nat) ≠ 200 :=
  ⟨by decide, by decide⟩

/-- C1 (amended): for every POST whose payload has `integrationId`
`"whatsapp"`, non-empty `chatId` and `text`, and a resolvable `userId`, the
handler responds with the send result `{success, messageId?, error?}` as
body, with HTTP status 200 when the send succeeded and 500 when the
completed send attempt failed — the `success` field reflects the actual send
outcome either way. -/
theorem send_route_completed_send (payload : OutboundPayload) (conns : Conns)
    (outcome : SocketSendOutcome) (userId : String)
    (hChat : payload.chatId ≠ "") (hText : payload.text ≠ "")
    (hInt : payload.integrationId = "whatsapp")
    (hUser : resolveUserId payload.userId conns = .ok userId) :
    handleSendRoute "POST" (.ok payload) conns outcome =
      ⟨if (sendMessage conns userId payload.chatId payload.text
            (firstMediaUrl payload.media) outcome).1.success then 200 else 500,
        (sendMessage conns userId payload.chatId payload.text
            (firstMediaUrl payload.media) outcome).1⟩ := by
  simp only [handleSendRoute, hUser, hInt]
  simp [hChat, hText]

/-- Witness for C1 (amended): the concrete payload against the connected
`u1`, with a successful underlying send. -/
theorem send_route_completed_send_witness :
    handleSendRoute "POST" (.ok c1Payload) c1Conns (.ok (some "wamid.1")) =
      ⟨if (sendMessage c1Conns "u1" c1Payload.chatId c1Payload.text
            (firstMediaUrl c1Payload.media) (.ok (some "wamid.1"))).1.success then 200 else 500,
        (sendMessage c1Conns "u1" c1Payload.chatId c1Payload.text
            (firstMediaUrl c1Payload.media) (.ok (some "wamid.1"))).1⟩ :=
  send_route_completed_send c1Payload c1Conns (.ok (some "wamid.1")) "u1"
    (by decide) (by decide) rfl rfl

/-- C6: under an enabled bridge with a configured webhook URL, every webhook
response with a non-2xx status makes `forwardToRaccoonAI` return
`{success:false}` with error `"HTTP <status>: <body>"`, the body text
replaced by `"Unknown error"` when it cannot be read; the function is total,
so it never throws. -/
theorem forward_non2xx_failure (config : RaccoonAIBridgeConfig) (status : Nat)
    (bodyText : Option String) (jsonBody : Except (Option String) WebhookAck)
    (hEnabled : config.enabled = some true) (hUrl : strTruthy config.webhookUrl = true)
    (hStatus : ¬(200 ≤ status ∧ status < 300)) :
    forwardToRaccoonAI config (.response status bodyText jsonBody) =
      { success := false, sessionId := none, sessionUrl := none,
        error := some ("HTTP " ++ toString status ++ ": " ++ bodyText.getD "Unknown error") } := by
  unfold forwardToRaccoonAI
  rw [if_neg (by simp [hEnabled]), if_neg (by simp [hUrl])]
  show (if ¬(200 ≤ status ∧ status < 300) then _ else _) = _
  rw [if_pos hStatus]

/-- Witness for C6: an HTTP 500 response with body `"oops"` yields
`{success:false, error:"HTTP 500: oops"}`. -/
theorem forward_non2xx_failure_witness :
    forwardToRaccoonAI enabledConfig
        (.response 500 (some "oops") (.ok ⟨none, none, none, none⟩)) =
      { success := false, sessionId := none, sessionUrl := none,
        error := some "HTTP 500: oops" } :=
  (forward_non2xx_failure enabledConfig 500 (some "oops") (.ok ⟨none, none, none, none⟩)
    rfl (by decide) (by decide)).trans (by decide)

/-- C10: a completed `initialize` sets the initialized flag even when the
integrations fetch failed or returned non-2xx (both are swallowed into an
empty integration list by `fetchIntegrations`); once the flag is set, every
further `initialize` call returns immediately — no fetch, no state change, no
user connected — until `shutdown` resets the flag to false. -/
theorem initialize_flag_behavior :
    (∀ (s : ManagerState) (fs : FileSystem) (fetch : IntegrationsFetch),
        s.isInitialized = false → ((initializeManager s fs fetch).1).isInitialized = true) ∧
    (∀ (s : ManagerState) (fs : FileSystem) (fetch : IntegrationsFetch),
        s.isInitialized = true → initializeManager s fs fetch = (s, fs, false)) ∧
    (∀ apiUrl : Option String, fetchIntegrations apiUrl .netError = []) ∧
    (∀ (apiUrl : Option String) (status : Nat) (integrations : Option (List Integration)),
        ¬(200 ≤ status ∧ status < 300) →
        fetchIntegrations apiUrl (.httpResponse status integrations) = []) ∧
    (∀ s : ManagerState, (shutdown s).isInitialized = false) := by
  refine ⟨?_, ?_, ?_, ?_, ?_⟩
  · intro s fs fetch h
    simp [initializeManager, h]
  · intro s fs fetch h
    simp [initializeManager, h]
  · intro apiUrl
    unfold fetchIntegrations
    split <;> rfl
  · intro apiUrl status integrations h
    unfold fetchIntegrations
    split
    · rfl
    · show (if 200 ≤ status ∧ status < 300 then _ else _) = _
      rw [if_neg h]
  · intro s
    simp [shutdown]

/-- Witness for C10: a failed fetch still flips the flag; a second call on
the initialized state is an exact no-op; a 500 listing response yields no
integrations. -/
theorem initialize_flag_behavior_witness :
    ((initializeManager uninitState emptyFs .netError).1).isInitialized = true ∧
    initializeManager { uninitState with isInitialized := true } emptyFs .netError =
      ({ uninitState with isInitialized := true }, emptyFs, false) ∧
    fetchIntegrations (some "https://api.example.com") (.httpResponse 500 none) = [] :=
  ⟨initialize_flag_behavior.1 uninitState emptyFs .netError rfl,
   initialize_flag_behavior.2.1 { uninitState with isInitialized := true } emptyFs .netError rfl,
   initialize_flag_behavior.2.2.2.1 (some "https://api.example.com") 500 none (by decide)⟩

end Moltbot
